import Mathlib

/-!
Verification of the MCP demo repository: an MCP client (`client.py`) that
orchestrates tool discovery, an LLM chat call, tool execution and a follow-up
chat call, plus two FastMCP tool servers (`server/mathe_problem.py`,
`server/weather.py`) exposing arithmetic and weather-lookup tools.

Modelling conventions:
* Python floats are idealized as exact rationals (`ℚ`); Python ints are `ℤ`.
  Arithmetic on these models is exact where IEEE doubles would round.
* Python exceptions are values of `PyErr`; a function that can raise returns
  `Except PyErr _`, a function that cannot raise returns a plain value.
* External effects (the OpenAI chat API, `json.loads`, `session.call_tool`,
  HTTP requests) are oracle parameters: arbitrary pure functions standing for
  one fixed behaviour of the outside world.
* `f"..."` formatting of a float is `fmtFloat`: the exact decimal expansion
  when it terminates (this agrees with Python's repr on such values in the
  ranges exercised here); non-terminating expansions are rendered as exact
  fractions, where Python would print a rounded 17-significant-digit decimal,
  and very large/small magnitudes would use scientific notation in Python.
-/

/-- Python exception kinds that the modelled code can raise.  `parseError`
stands for `SyntaxError` (and kindred compile-time errors) raised by `eval`
on a malformed expression. -/
inductive PyErr where
  | attributeError
  | connectionError
  | valueError
  | keyError
  | typeError
  | zeroDivisionError
  | parseError
deriving DecidableEq

/-- Abbreviated model of Python's `str(e)` on an exception, as used in the
`f"Error: ... - {str(e)}"` messages (the real text carries CPython detail
which the spec never pins down). -/
def errText : PyErr → String
  | .attributeError => "AttributeError"
  | .connectionError => "ConnectionError"
  | .valueError => "ValueError"
  | .keyError => "KeyError"
  | .typeError => "TypeError"
  | .zeroDivisionError => "division by zero"
  | .parseError => "invalid syntax"

/-- Absolute value on `ℚ`, written out so that it reduces in the kernel. -/
def ratAbs (q : ℚ) : ℚ := if q < 0 then -q else q

/-- Floor of a rational as an integer (`num.fdiv den`; `den > 0`). -/
def ratFloor (q : ℚ) : ℤ := q.num.fdiv q.den

/-- The decimal digit character for `n < 10`. -/
def digitChar (n : Nat) : Char := Char.ofNat (48 + n)

/-- Successive decimal digits of a fractional part `q ∈ [0, 1)`, with fuel;
stops when the remainder reaches `0`. -/
def fracDigits : Nat → ℚ → List Char
  | 0, _ => []
  | f + 1, q =>
    if q = 0 then []
    else
      let q10 := q * 10
      let d := (ratFloor q10).toNat
      digitChar d :: fracDigits f (q10 - (d : ℚ))

/-- Remove every factor `p` from `n` (fuel-bounded division loop). -/
def stripFactor : Nat → Nat → Nat → Nat
  | 0, _, n => n
  | f + 1, p, n => if n % p = 0 ∧ 2 ≤ n then stripFactor f p (n / p) else n

/-- Whether a reduced denominator yields a terminating decimal expansion
(only factors 2 and 5). -/
def isTermDen (d : Nat) : Bool := stripFactor d 5 (stripFactor d 2 d) = 1

/-- Model of Python's `f"{x}"` on a float, under the rational idealization:
sign, integer part, a decimal point, then either the terminating fractional
digits or `"0"`.  A value whose decimal expansion does not terminate is
rendered as an exact fraction (see the module comment). -/
def fmtFloat (q : ℚ) : String :=
  let a := ratAbs q
  let sign := if q < 0 then "-" else ""
  if isTermDen q.den then
    let ip := (ratFloor a).toNat
    let fr := a - (ip : ℚ)
    let ds := fracDigits a.den fr
    sign ++ toString ip ++ "." ++ (if ds.isEmpty then "0" else String.mk ds)
  else
    sign ++ toString a.num ++ "/" ++ toString a.den

/-- A Python number as produced by `eval` on an arithmetic expression:
either an `int` or a `float` (idealized as `ℚ`). -/
inductive PyNum where
  | int (n : ℤ)
  | float (q : ℚ)
deriving DecidableEq

/-- Numeric value of a `PyNum`. -/
def PyNum.toQ : PyNum → ℚ
  | .int n => (n : ℚ)
  | .float q => q

/-- Model of `f"{v}"` on an `int` or `float` value. -/
def fmtNum : PyNum → String
  | .int n => toString n
  | .float q => fmtFloat q

/-- Python `+` on numbers: `int + int` stays `int`, otherwise `float`. -/
def pyAdd : PyNum → PyNum → PyNum
  | .int a, .int b => .int (a + b)
  | a, b => .float (a.toQ + b.toQ)

/-- Python binary `-` on numbers. -/
def pySub : PyNum → PyNum → PyNum
  | .int a, .int b => .int (a - b)
  | a, b => .float (a.toQ - b.toQ)

/-- Python `*` on numbers. -/
def pyMul : PyNum → PyNum → PyNum
  | .int a, .int b => .int (a * b)
  | a, b => .float (a.toQ * b.toQ)

/-- Python unary `-` on numbers. -/
def pyNeg : PyNum → PyNum
  | .int n => .int (-n)
  | .float q => .float (-q)

/-- Python `/` (true division): always a `float`; raises
`ZeroDivisionError` on a zero divisor (Python floats raise too). -/
def pyDiv (a b : PyNum) : Except PyErr PyNum :=
  if b.toQ = 0 then .error .zeroDivisionError
  else .ok (.float (a.toQ / b.toQ))

/-- Python `//` (floor division). -/
def pyFloorDiv (a b : PyNum) : Except PyErr PyNum :=
  match a, b with
  | .int x, .int y =>
    if y = 0 then .error .zeroDivisionError else .ok (.int (x.fdiv y))
  | x, y =>
    if y.toQ = 0 then .error .zeroDivisionError
    else .ok (.float ((ratFloor (x.toQ / y.toQ) : ℤ) : ℚ))

/-- `q ^ n` for an integer exponent, written out computably. -/
def zpowQ (q : ℚ) (n : ℤ) : ℚ :=
  if 0 ≤ n then q ^ n.toNat else (q ^ (-n).toNat)⁻¹

/-- Python `**` on numbers.  `int ** nonneg int` is an exact `int`;
`int ** negative int` is a `float` (ZeroDivisionError on base 0); with a
`float` operand and an integer-valued exponent the result is the exact
power; a non-integer exponent is delegated to the oracle `fp`, which stands
for the host's float power (for a negative base Python would produce a
complex number — outside this model and all claims). -/
def pyPow (fp : ℚ → ℚ → ℚ) (a b : PyNum) : Except PyErr PyNum :=
  match a, b with
  | .int x, .int y =>
    if 0 ≤ y then .ok (.int (x ^ y.toNat))
    else if x = 0 then .error .zeroDivisionError
    else .ok (.float (zpowQ (x : ℚ) y))
  | x, y =>
    let xq := x.toQ
    let yq := y.toQ
    if yq.den = 1 then
      if yq.num < 0 ∧ xq = 0 then .error .zeroDivisionError
      else .ok (.float (zpowQ xq yq.num))
    else .ok (.float (fp xq yq))

/-- Tokens of the arithmetic fragment of Python's expression grammar that is
reachable through `calculate`'s character filter: numbers, `+ - * / // **`
and parentheses. -/
inductive Tok where
  | num (lit : List Char)
  | plus | minus | star | slash | dstar | dslash | lparen | rparen
deriving DecidableEq

/-- Push a pending (reversed) number literal onto the token accumulator. -/
def flushNum (buf : List Char) (acc : List Tok) : List Tok :=
  if buf.isEmpty then acc else .num buf.reverse :: acc

/-- Tokenizer: groups maximal digit/dot runs into number literals and
recognizes the operators, two-character `**` and `//` included.  A character
outside the modelled alphabet is a syntax error (such a character can only
reach `pyEvalChars` on inputs that `calculate`'s filter would reject).
The fuel argument only drives the recursion; one unit per consumed
character is always enough. -/
def lexAux : Nat → List Char → List Tok → List Char → Except PyErr (List Tok)
  | 0, _, _, _ => .error .parseError
  | _ + 1, buf, acc, [] => .ok (flushNum buf acc).reverse
  | f + 1, buf, acc, c :: cs =>
    if c.isDigit || c = '.' then lexAux f (c :: buf) acc cs
    else
      let acc1 := flushNum buf acc
      match c, cs with
      | '*', '*' :: cs1 => lexAux f [] (.dstar :: acc1) cs1
      | '/', '/' :: cs1 => lexAux f [] (.dslash :: acc1) cs1
      | '+', _ => lexAux f [] (.plus :: acc1) cs
      | '-', _ => lexAux f [] (.minus :: acc1) cs
      | '*', _ => lexAux f [] (.star :: acc1) cs
      | '/', _ => lexAux f [] (.slash :: acc1) cs
      | '(', _ => lexAux f [] (.lparen :: acc1) cs
      | ')', _ => lexAux f [] (.rparen :: acc1) cs
      | _, _ => .error .parseError

/-- Value of a digit run as a natural number. -/
def natOfDigits (l : List Char) : Nat :=
  l.foldl (fun acc c => 10 * acc + (c.toNat - 48)) 0

/-- Value of a number literal, following Python's lexical rules: an integer
literal may not have leading zeros (unless it is all zeros); a float literal
has exactly one dot and at least one digit (`"5."`, `".5"` are valid, `"."`
and multi-dot runs are syntax errors, as in Python where adjacent number
tokens fail to parse). -/
def numValue (lit : List Char) : Except PyErr PyNum :=
  let dots := lit.count '.'
  if dots = 0 then
    if lit.head? = some '0' ∧ ¬lit.all (fun c => c = '0') then .error .parseError
    else .ok (.int (natOfDigits lit))
  else if dots = 1 then
    if lit.any Char.isDigit then
      let ipart := lit.takeWhile (fun c => c ≠ '.')
      let fpart := (lit.dropWhile (fun c => c ≠ '.')).drop 1
      .ok (.float ((natOfDigits ipart : ℚ) + (natOfDigits fpart : ℚ) / (10 : ℚ) ^ fpart.length))
    else .error .parseError
  else .error .parseError

/-- Abstract syntax of the arithmetic expressions `eval` can receive through
the filter: literals, unary sign, `+ - * /`, floor division and power. -/
inductive PExpr where
  | num (n : PyNum)
  | pos (e : PExpr)
  | neg (e : PExpr)
  | add (a b : PExpr)
  | sub (a b : PExpr)
  | mul (a b : PExpr)
  | div (a b : PExpr)
  | fdiv (a b : PExpr)
  | pow (a b : PExpr)

mutual

/-- `expr := term (('+'|'-') term)*` — lowest precedence, left-associative. -/
def parseExpr : Nat → List Tok → Except PyErr (PExpr × List Tok)
  | 0, _ => .error .parseError
  | f + 1, ts =>
    match parseTerm f ts with
    | .error e => .error e
    | .ok (a, ts1) => parseExprTail f a ts1

/-- Left-associative loop of `+`/`-` continuations. -/
def parseExprTail : Nat → PExpr → List Tok → Except PyErr (PExpr × List Tok)
  | 0, _, _ => .error .parseError
  | f + 1, a, ts =>
    match ts with
    | .plus :: ts1 =>
      match parseTerm f ts1 with
      | .error e => .error e
      | .ok (b, ts2) => parseExprTail f (.add a b) ts2
    | .minus :: ts1 =>
      match parseTerm f ts1 with
      | .error e => .error e
      | .ok (b, ts2) => parseExprTail f (.sub a b) ts2
    | _ => .ok (a, ts)

/-- `term := factor (('*'|'/'|'//') factor)*`. -/
def parseTerm : Nat → List Tok → Except PyErr (PExpr × List Tok)
  | 0, _ => .error .parseError
  | f + 1, ts =>
    match parseFactor f ts with
    | .error e => .error e
    | .ok (a, ts1) => parseTermTail f a ts1

/-- Left-associative loop of `*`/`/`/`//` continuations. -/
def parseTermTail : Nat → PExpr → List Tok → Except PyErr (PExpr × List Tok)
  | 0, _, _ => .error .parseError
  | f + 1, a, ts =>
    match ts with
    | .star :: ts1 =>
      match parseFactor f ts1 with
      | .error e => .error e
      | .ok (b, ts2) => parseTermTail f (.mul a b) ts2
    | .slash :: ts1 =>
      match parseFactor f ts1 with
      | .error e => .error e
      | .ok (b, ts2) => parseTermTail f (.div a b) ts2
    | .dslash :: ts1 =>
      match parseFactor f ts1 with
      | .error e => .error e
      | .ok (b, ts2) => parseTermTail f (.fdiv a b) ts2
    | _ => .ok (a, ts)

/-- `factor := ('+'|'-') factor | power` — Python's unary operators bind
looser than `**` on its left (`-2**2` is `-(2**2)`). -/
def parseFactor : Nat → List Tok → Except PyErr (PExpr × List Tok)
  | 0, _ => .error .parseError
  | f + 1, ts =>
    match ts with
    | .plus :: ts1 =>
      match parseFactor f ts1 with
      | .error e => .error e
      | .ok (b, ts2) => .ok (.pos b, ts2)
    | .minus :: ts1 =>
      match parseFactor f ts1 with
      | .error e => .error e
      | .ok (b, ts2) => .ok (.neg b, ts2)
    | _ => parsePower f ts

/-- `power := atom ['**' factor]` — right-associative, unary sign allowed in
the exponent, as in Python. -/
def parsePower : Nat → List Tok → Except PyErr (PExpr × List Tok)
  | 0, _ => .error .parseError
  | f + 1, ts =>
    match parseAtom f ts with
    | .error e => .error e
    | .ok (a, ts1) =>
      match ts1 with
      | .dstar :: ts2 =>
        match parseFactor f ts2 with
        | .error e => .error e
        | .ok (b, ts3) => .ok (.pow a b, ts3)
      | _ => .ok (a, ts1)

/-- `atom := NUMBER | '(' expr ')'`. -/
def parseAtom : Nat → List Tok → Except PyErr (PExpr × List Tok)
  | 0, _ => .error .parseError
  | f + 1, ts =>
    match ts with
    | .num lit :: ts1 =>
      match numValue lit with
      | .error e => .error e
      | .ok n => .ok (.num n, ts1)
    | .lparen :: ts1 =>
      match parseExpr f ts1 with
      | .error e => .error e
      | .ok (a, ts2) =>
        match ts2 with
        | .rparen :: ts3 => .ok (a, ts3)
        | _ => .error .parseError
    | _ => .error .parseError

end

/-- Evaluation of the parsed expression, operands left to right, with
Python's int/float result typing; division by zero raises. -/
def evalAst (fp : ℚ → ℚ → ℚ) : PExpr → Except PyErr PyNum
  | .num n => .ok n
  | .pos e => evalAst fp e
  | .neg e =>
    match evalAst fp e with
    | .error er => .error er
    | .ok v => .ok (pyNeg v)
  | .add a b =>
    match evalAst fp a with
    | .error er => .error er
    | .ok x =>
      match evalAst fp b with
      | .error er => .error er
      | .ok y => .ok (pyAdd x y)
  | .sub a b =>
    match evalAst fp a with
    | .error er => .error er
    | .ok x =>
      match evalAst fp b with
      | .error er => .error er
      | .ok y => .ok (pySub x y)
  | .mul a b =>
    match evalAst fp a with
    | .error er => .error er
    | .ok x =>
      match evalAst fp b with
      | .error er => .error er
      | .ok y => .ok (pyMul x y)
  | .div a b =>
    match evalAst fp a with
    | .error er => .error er
    | .ok x =>
      match evalAst fp b with
      | .error er => .error er
      | .ok y => pyDiv x y
  | .fdiv a b =>
    match evalAst fp a with
    | .error er => .error er
    | .ok x =>
      match evalAst fp b with
      | .error er => .error er
      | .ok y => pyFloorDiv x y
  | .pow a b =>
    match evalAst fp a with
    | .error er => .error er
    | .ok x =>
      match evalAst fp b with
      | .error er => .error er
      | .ok y => pyPow fp x y

/-- Model of Python `eval` on a character list drawn from `calculate`'s
alphabet: tokenize, parse the whole input as one expression (compile phase —
its errors are `SyntaxError`s), then evaluate (run phase — its errors are
`ZeroDivisionError`s).  `fp` is the host's float power for non-integer
exponents. -/
def pyEvalChars (fp : ℚ → ℚ → ℚ) (cs : List Char) : Except PyErr PyNum :=
  match lexAux (cs.length + 1) [] [] cs with
  | .error e => .error e
  | .ok ts =>
    match parseExpr (6 * (ts.length + 1)) ts with
    | .error e => .error e
    | .ok (ast, rest) =>
      match rest with
      | [] => evalAst fp ast
      | _ => .error .parseError

/-- The character filter of `calculate`/`solve_steps`:
`set("0123456789+-*/.()")`. -/
def allowedChar (c : Char) : Bool := "0123456789+-*/.()".data.contains c

/-- The fixed invalid-characters message of `calculate`. -/
def invalidCharsMsg : String :=
  "Error: Expression contains invalid characters. Only numbers and +, -, *, /, (), . are allowed."

/-- `calculate` from `server/mathe_problem.py` (the copy in
`server/weather.py` is textually identical): strip spaces, check the
character filter, evaluate, and format; `ZeroDivisionError` and other
evaluation errors are converted to descriptive strings. -/
def calculate (fp : ℚ → ℚ → ℚ) (expression : String) : String :=
  if (expression.data.filter (fun c => c ≠ ' ')).all allowedChar then
    match pyEvalChars fp (expression.data.filter (fun c => c ≠ ' ')) with
    | .ok v => expression ++ " = " ++ fmtNum v
    | .error .zeroDivisionError => "Error: Division by zero in expression!"
    | .error e => "Error: Invalid mathematical expression - " ++ errText e
  else invalidCharsMsg

/-- `divide` (identical in both server files): divide-by-zero yields a fixed
error string instead of raising; otherwise the formatted exact quotient. -/
def divide (a b : ℚ) : String :=
  if b = 0 then "Error: Cannot divide by zero!"
  else fmtFloat a ++ " ÷ " ++ fmtFloat b ++ " = " ++ fmtFloat (a / b)

/-- `percentage`: `(number * percent) / 100`, formatted. -/
def percentage (number percent : ℚ) : String :=
  fmtFloat percent ++ "% of " ++ fmtFloat number ++ " = " ++ fmtFloat (number * percent / 100)

/-- `power`: `base ** exponent` on floats with the evaluation exceptions
caught and reported as an error string. -/
def power (fp : ℚ → ℚ → ℚ) (base exponent : ℚ) : String :=
  match pyPow fp (.float base) (.float exponent) with
  | .ok r => fmtFloat base ++ "^" ++ fmtFloat exponent ++ " = " ++ fmtNum r
  | .error e => "Error: Cannot calculate power - " ++ errText e

/-- `square_root`: negative input is rejected with a fixed error string;
otherwise `number ** 0.5` — a float power with the non-integer exponent
`0.5`, hence the host-power oracle `fp` — is formatted.  The function is
total: it never raises. -/
def squareRoot (fp : ℚ → ℚ → ℚ) (number : ℚ) : String :=
  if number < 0 then "Error: Cannot calculate square root of negative number!"
  else "√" ++ fmtFloat number ++ " = " ++ fmtFloat (fp number (1 / 2))

/-- A fixed instantiation of the float-power oracle for concrete runs whose
expressions use no non-integer exponent (the oracle is then never consulted). -/
def fpZero : ℚ → ℚ → ℚ := fun _ _ => 0


/-- A JSON-like Python value as returned by `response.json()` and carried in
tool arguments/results: `None`, booleans, numbers, strings, lists and dicts
(dicts as association lists in insertion order, as Python preserves it). -/
inductive JsonV where
  | null
  | bool (b : Bool)
  | num (q : ℚ)
  | str (s : String)
  | arr (l : List JsonV)
  | obj (l : List (String × JsonV))

/-- Python truthiness test (`not data`) on a JSON value: `None`, `False`,
zero, the empty string, list and dict are falsy. -/
def pyFalsy : JsonV → Bool
  | .null => true
  | .bool b => !b
  | .num q => q = 0
  | .str s => s = ""
  | .arr l => l.isEmpty
  | .obj l => l.isEmpty

/-- Whether a JSON value equals a given Python string (element test used by
`in` on lists). -/
def jsonIsStr (j : JsonV) (k : String) : Bool :=
  match j with
  | .str s => s = k
  | _ => false

/-- Whether `pat` occurs as a contiguous subsequence of `s` (Python `in` on
strings). -/
def hasSubSeq (pat : List Char) : List Char → Bool
  | [] => pat.isEmpty
  | c :: cs => pat == (c :: cs).take pat.length || hasSubSeq pat cs

/-- Python `k in data`: key test on a dict, membership on a list, substring
on a string; a `TypeError` on non-container values. -/
def jHasKey (j : JsonV) (k : String) : Except PyErr Bool :=
  match j with
  | .obj l => .ok ((l.map Prod.fst).contains k)
  | .arr l => .ok (l.any (fun v => jsonIsStr v k))
  | .str s => .ok (hasSubSeq k.data s.data)
  | _ => .error .typeError

/-- Python `data[k]` with a string key: `KeyError` when the key is absent
from a dict, `TypeError` on any non-dict. -/
def jIndex (j : JsonV) (k : String) : Except PyErr JsonV :=
  match j with
  | .obj l =>
    match l.lookup k with
    | some v => .ok v
    | none => .error .keyError
  | _ => .error .typeError

/-- Python `str(v)`/f-string rendering of a JSON value.  Strings render as
themselves; numbers through `fmtFloat` (idealized — Python distinguishes
int and float reprs inside parsed JSON); the structured cases are
abbreviated, no claim depends on them. -/
def jsonToStr : JsonV → String
  | .null => "None"
  | .bool b => if b then "True" else "False"
  | .num q => fmtFloat q
  | .str s => s
  | .arr _ => "<list>"
  | .obj _ => "<dict>"

/-- Python `d.get(k, default)` where the result is then formatted into an
f-string: dict lookup with a default; an `AttributeError` on any non-dict
(no `get` attribute). -/
def jGetD (j : JsonV) (k : String) (dflt : String) : Except PyErr String :=
  match j with
  | .obj l =>
    match l.lookup k with
    | some v => .ok (jsonToStr v)
    | none => .ok dflt
  | _ => .error .attributeError

/-- Python `for x in data`: list elements, dict keys, string characters;
`TypeError` otherwise. -/
def jIter : JsonV → Except PyErr (List JsonV)
  | .arr l => .ok l
  | .obj l => .ok (l.map (fun p => JsonV.str p.1))
  | .str s => .ok (s.data.map (fun c => JsonV.str (String.mk [c])))
  | _ => .error .typeError

/-- Python `data[:5]`-then-iterate: slicing is defined on lists and strings,
`TypeError` otherwise. -/
def jSlice (j : JsonV) (n : Nat) : Except PyErr (List JsonV) :=
  match j with
  | .arr l => .ok (l.take n)
  | .str s => .ok ((s.data.take n).map (fun c => JsonV.str (String.mk [c])))
  | _ => .error .typeError

/-- Map a fallible function over a list, stopping at the first error
(Python list comprehension / loop over fallible bodies). -/
def mapExcept (f : α → Except PyErr β) : List α → Except PyErr (List β)
  | [] => .ok []
  | x :: xs =>
    match f x with
    | .error e => .error e
    | .ok y =>
      match mapExcept f xs with
      | .error e => .error e
      | .ok ys => .ok (y :: ys)

/-- `format_alert`: reads `feature["properties"]` (raising `KeyError` /
`TypeError` when absent) and formats five `.get`-with-default fields. -/
def formatAlert (feature : JsonV) : Except PyErr String :=
  match jIndex feature "properties" with
  | .error e => .error e
  | .ok props =>
    match jGetD props "event" "Unknown" with
    | .error e => .error e
    | .ok ev =>
      match jGetD props "areaDesc" "Unknown" with
      | .error e => .error e
      | .ok area =>
        match jGetD props "severity" "Unknown" with
        | .error e => .error e
        | .ok sev =>
          match jGetD props "description" "No description available" with
          | .error e => .error e
          | .ok desc =>
            match jGetD props "instruction" "No specific instructions provided" with
            | .error e => .error e
            | .ok instr =>
              .ok ("\nEvent: " ++ ev ++ "\nArea: " ++ area ++ "\nSeverity: " ++ sev ++
                "\nDescription: " ++ desc ++ "\nInstructions: " ++ instr ++ "\n")

/-- The NWS alerts URL built by `get_alerts`. -/
def alertsUrl (state : String) : String :=
  "https://api.weather.gov/alerts/active/area/" ++ state

/-- The NWS points URL built by `get_forecast`. -/
def pointsUrl (latitude longitude : ℚ) : String :=
  "https://api.weather.gov/points/" ++ fmtFloat latitude ++ "," ++ fmtFloat longitude

/-- The first fallback string of `get_alerts`. -/
def alertsFallback : String := "Unable to fetch alerts or no alerts found."

/-- The first fallback string of `get_forecast`. -/
def pointsFallback : String := "Unable to fetch forecast data for this location."

/-- The second fallback string of `get_forecast`. -/
def forecastFallback : String := "Unable to fetch detailed forecast."

/-- `get_alerts` from `server/weather.py`.  `fetch` is the oracle for
`make_nws_request`, whose body is one HTTP GET with a catch-all returning
`None` on any transport error or non-success status. -/
def getAlerts (fetch : String → Option JsonV) (state : String) : Except PyErr String :=
  match fetch (alertsUrl state) with
  | none => .ok alertsFallback
  | some data =>
    if pyFalsy data then .ok alertsFallback
    else
      match jHasKey data "features" with
      | .error e => .error e
      | .ok hasF =>
        if !hasF then .ok alertsFallback
        else
          match jIndex data "features" with
          | .error e => .error e
          | .ok features =>
            if pyFalsy features then .ok "No active alerts for this state."
            else
              match jIter features with
              | .error e => .error e
              | .ok items =>
                match mapExcept formatAlert items with
                | .error e => .error e
                | .ok alerts => .ok (String.intercalate "\n---\n" alerts)

/-- One forecast period block of `get_forecast`. -/
def formatPeriod (p : JsonV) : Except PyErr String :=
  match jIndex p "name" with
  | .error e => .error e
  | .ok nm =>
    match jIndex p "temperature" with
    | .error e => .error e
    | .ok temp =>
      match jIndex p "temperatureUnit" with
      | .error e => .error e
      | .ok tu =>
        match jIndex p "windSpeed" with
        | .error e => .error e
        | .ok ws =>
          match jIndex p "windDirection" with
          | .error e => .error e
          | .ok wd =>
            match jIndex p "detailedForecast" with
            | .error e => .error e
            | .ok df =>
              .ok ("\n" ++ jsonToStr nm ++ ":\nTemperature: " ++ jsonToStr temp ++ "°" ++
                jsonToStr tu ++ "\nWind: " ++ jsonToStr ws ++ " " ++ jsonToStr wd ++
                "\nForecast: " ++ jsonToStr df ++ "\n")

/-- `get_forecast` from `server/weather.py`: two dependent fetches; a `None`
or falsy response at either step returns a fixed fallback string, but a
truthy response missing `"properties"`/`"forecast"`/`"periods"` raises
(`KeyError`/`TypeError`) — the indexing is unguarded in the source. -/
def getForecast (fetch : String → Option JsonV) (latitude longitude : ℚ) :
    Except PyErr String :=
  match fetch (pointsUrl latitude longitude) with
  | none => .ok pointsFallback
  | some pd =>
    if pyFalsy pd then .ok pointsFallback
    else
      match jIndex pd "properties" with
      | .error e => .error e
      | .ok props =>
        match jIndex props "forecast" with
        | .error e => .error e
        | .ok furl =>
          match fetch (jsonToStr furl) with
          | none => .ok forecastFallback
          | some fd =>
            if pyFalsy fd then .ok forecastFallback
            else
              match jIndex fd "properties" with
              | .error e => .error e
              | .ok fprops =>
                match jIndex fprops "periods" with
                | .error e => .error e
                | .ok periods =>
                  match jSlice periods 5 with
                  | .error e => .error e
                  | .ok firstFive =>
                    match mapExcept formatPeriod firstFive with
                    | .error e => .error e
                    | .ok fs => .ok (String.intercalate "\n---\n" fs)

/-- A tool invocation request as produced by the model: the correlation id
`tool_call.id`, the function name and the JSON-encoded argument string
(`tool_call.function.name` / `.arguments`, flattened). -/
structure ToolCall where
  id : String
  name : String
  arguments : String
deriving DecidableEq

/-- A conversation message, tagged by role as `process_query` builds them:
the fixed system instruction, the user query, an assistant message carrying
tool calls (`content=None`), or a tool-result message (`role="tool"`). -/
inductive Message where
  | system (content : String)
  | user (content : String)
  | assistantToolCalls (tcs : List ToolCall)
  | toolResult (id : String) (content : JsonV)

/-- The message of one chat-completion choice: optional text content and a
tool-call list (Python's `None` and `[]` are both falsy, modelled as the
empty list for the calls and as `none`/`""` for the content). -/
structure AssistantMsg where
  content : Option String
  tool_calls : List ToolCall

/-- A tool descriptor as listed by the server session. -/
structure Tool where
  name : String
  description : String
  inputSchema : JsonV

/-- The OpenAI function-tool schema built from a descriptor in
`process_query`. -/
structure ToolSchema where
  name : String
  description : String
  parameters : JsonV

/-- `call_tool`'s result; only its `content` field is read. -/
structure CallToolResult where
  content : JsonV

/-- An established MCP session: the advertised tools (`list_tools`) and the
`call_tool` endpoint (an oracle; a tool failure is an exception). -/
structure SessionData where
  tools : List Tool
  callTool : String → JsonV → Except PyErr CallToolResult

/-- The external collaborators of `process_query`: the chat-completions API
(one fixed behaviour as a function of the messages and the optional tool
schemas; model name, temperature and tool-choice are fixed in the source and
folded into the oracle) and `json.loads` on argument strings. -/
structure Oracles where
  chat : List Message → Option (List ToolSchema) → AssistantMsg
  parseArgs : String → Except PyErr JsonV

/-- The fixed system instruction of `process_query`. -/
def systemPrompt : String := "You are a helpful assistant who can use tools when needed."

/-- The seeded conversation: system instruction plus the user's query. -/
def initialMessages (query : String) : List Message :=
  [.system systemPrompt, .user query]

/-- Descriptor-to-schema conversion done in `process_query`. -/
def toSchema (t : Tool) : ToolSchema := ⟨t.name, t.description, t.inputSchema⟩

/-- The `tools=` argument of the first chat call:
`available_tools if available_tools else None`. -/
def toolsParam (tools : List Tool) : Option (List ToolSchema) :=
  if tools.isEmpty then none else some (tools.map toSchema)

/-- `if message.content: final_text.append(message.content)` — the recorded
fragment list contributed by one message (empty for `None` and for `""`,
both falsy). -/
def contentFrag : Option String → List String
  | none => []
  | some c => if c = "" then [] else [c]

/-- The correlation id of a tool-result message, `none` for other roles. -/
def toolResultId : Message → Option String
  | .toolResult i _ => some i
  | _ => none

/-- The tool-execution loop of `process_query`: for each tool call in order,
parse the JSON arguments, call the tool, and append the assistant tool-call
message followed by the tool-result message.  Returns the messages appended
to the conversation; any exception (argument parsing, tool failure)
propagates, aborting the loop.  The local `tool_results` list of the source
is write-only and omitted. -/
def runToolCalls (o : Oracles) (s : SessionData) : List ToolCall → Except PyErr (List Message)
  | [] => .ok []
  | tc :: rest =>
    match o.parseArgs tc.arguments with
    | .error e => .error e
    | .ok args =>
      match s.callTool tc.name args with
      | .error e => .error e
      | .ok result =>
        match runToolCalls o s rest with
        | .error e => .error e
        | .ok tail =>
          .ok (.assistantToolCalls [tc] :: .toolResult tc.id result.content :: tail)

/-- The first chat call of `process_query`: the seeded conversation with the
full tool-schema list attached. -/
def firstResponse (o : Oracles) (s : SessionData) (query : String) : AssistantMsg :=
  o.chat (initialMessages query) (toolsParam s.tools)

/-- `process_query` from `client.py`.  With no established session the
attribute access `self.session.list_tools()` on `None` raises
`AttributeError`.  Otherwise: first chat call; record its text content; if
it carries tool calls, run them all, issue the follow-up chat call on the
extended conversation with no tools offered, and record its text content;
return the fragments newline-joined. -/
def processQuery (o : Oracles) (session : Option SessionData) (query : String) :
    Except PyErr String :=
  match session with
  | none => .error .attributeError
  | some s =>
    let msg := firstResponse o s query
    let final0 := contentFrag msg.content
    if msg.tool_calls.isEmpty then .ok (String.intercalate "\n" final0)
    else
      match runToolCalls o s msg.tool_calls with
      | .error e => .error e
      | .ok delta =>
        let followup := o.chat (initialMessages query ++ delta) none
        .ok (String.intercalate "\n" (final0 ++ contentFrag followup.content))

/-- Python `str.strip()` whitespace (ASCII fragment). -/
def pyWhitespace (c : Char) : Bool :=
  c = ' ' || c = '\t' || c = '\n' || c = '\x0d' || c = '\x0b' || c = '\x0c'

/-- Model of Python `str.strip()`. -/
def pyStrip (s : String) : String :=
  String.mk (((s.data.dropWhile pyWhitespace).reverse.dropWhile pyWhitespace).reverse)

/-- Model of Python `str.lower()` (ASCII fragment). -/
def pyLower (s : String) : String := String.mk (s.data.map Char.toLower)

/-- The termination test of `chat_loop`: `query.lower() == 'quit'` on the
stripped input line. -/
def isQuit (line : String) : Bool := pyLower (pyStrip line) = "quit"

/-- What one non-quit iteration of `chat_loop` prints: the returned text on
success, `"Error: ..."` with the exception text when anything raised
(caught by the `except Exception` clause). -/
def renderTurn (p : String → Except PyErr String) (line : String) : String :=
  match p (pyStrip line) with
  | .ok r => "\n" ++ r
  | .error e => "\nError: " ++ errText e

/-- `chat_loop` from `client.py`, driven by a finite transcript of input
lines: returns the printed outputs and whether the loop terminated via the
quit sentinel.  `p` is the query processor (`process_query` bound to the
client's session).  Each non-quit line is processed and the loop always
continues afterwards, erroring queries included. -/
def chatLoop (p : String → Except PyErr String) : List String → List String × Bool
  | [] => ([], false)
  | line :: rest =>
    if isQuit line then ([], true)
    else (renderTurn p line :: (chatLoop p rest).1, (chatLoop p rest).2)

/-- The side effects `connect_to_server` would perform after its suffix
check: spawning the server subprocess, initializing the session, listing
the tools. -/
inductive ConnectAction where
  | spawn (command : String) (scriptPath : String)
  | initializeSession
  | listTools
deriving DecidableEq

/-- The client's mutable state relevant to connection: the optional session
(`self.session`, `None` until a connect completes). -/
structure ClientState where
  session : Option SessionData

/-- Python `str.endswith(suffix)`. -/
def strEndsWith (s suf : String) : Bool :=
  decide (suf.data.length ≤ s.data.length) &&
    s.data.drop (s.data.length - suf.data.length) == suf.data

/-- `connect_to_server` from `client.py`: a path ending in neither `.py`
nor `.js` raises `ValueError` before any side effect, leaving the state
untouched; otherwise the server is spawned with `python`/`node`, the
session is established and the tools are listed.  `mkSession` is the oracle
producing the established session. -/
def connectToServer (mkSession : String → String → SessionData) (st : ClientState)
    (path : String) : Except PyErr Unit × ClientState × List ConnectAction :=
  if strEndsWith path ".py" || strEndsWith path ".js" then
    let command := if strEndsWith path ".py" then "python" else "node"
    (.ok (), ⟨some (mkSession command path)⟩,
      [.spawn command path, .initializeSession, .listTools])
  else (.error .valueError, st, [])

/-- C2 (counterexample): the claim "for every expression string containing
any character outside the digit/operator/parenthesis/decimal-point set,
calculate returns the fixed invalid-characters message" is false at the
concrete input `"1 2"`: the space is outside the set, yet `calculate`
strips spaces before validating and returns `"1 2 = 12"`. -/
theorem calculate_space_counterexample :
    ("1 2".data.all allowedChar) = false ∧
    calculate fpZero "1 2" = "1 2 = 12" ∧
    ("1 2 = 12" : String) ≠ invalidCharsMsg := by
  refine ⟨by with_unfolding_all decide, by with_unfolding_all decide,
    by with_unfolding_all decide⟩

/-- C2 (amended): after space removal, an expression with a remaining
character outside the allowed set yields the fixed invalid-characters
message; an expression that passes the filter and evaluates successfully is
reported as `"{expression} = {value}"` with the value computed under
standard arithmetic precedence (the grammar embedded in `pyEvalChars`). -/
theorem calculate_filtered_spec (fp : ℚ → ℚ → ℚ) (expression : String) :
    ((expression.data.filter (fun c => c ≠ ' ')).all allowedChar = false →
      calculate fp expression = invalidCharsMsg) ∧
    (∀ v : PyNum, (expression.data.filter (fun c => c ≠ ' ')).all allowedChar = true →
      pyEvalChars fp (expression.data.filter (fun c => c ≠ ' ')) = .ok v →
      calculate fp expression = expression ++ " = " ++ fmtNum v) := by
  constructor
  · intro h
    simp only [calculate, h]
    rfl
  · intro v h hv
    simp only [calculate, h, hv]
    rfl

/-- C2 (witness): `"2+3*4"` passes the filter, evaluates to `14`
(multiplication binding tighter than addition), and is reported so. -/
theorem calculate_filtered_spec_witness : calculate fpZero "2+3*4" = "2+3*4 = 14" := by
  have h := (calculate_filtered_spec fpZero "2+3*4").2 (PyNum.int 14)
    (by with_unfolding_all decide) (by with_unfolding_all rfl)
  exact h.trans (by with_unfolding_all decide)

/-- C3: for `b ≠ 0`, `divide a b` is the formatted exact quotient (the last
component of the returned string is the rendering of `a / b`); `divide a 0`
is the fixed division-by-zero string.  `divide` is a total `String`-valued
function: it never raises. -/
theorem divide_spec (a b : ℚ) :
    (b ≠ 0 → divide a b = fmtFloat a ++ " ÷ " ++ fmtFloat b ++ " = " ++ fmtFloat (a / b)) ∧
    divide a 0 = "Error: Cannot divide by zero!" := by
  constructor
  · intro hb
    simp [divide, hb]
  · simp [divide]

/-- C3 (witness): `divide 1 2` at the concrete quotient `0.5`, and the
zero-divisor branch. -/
theorem divide_spec_witness :
    divide 1 2 = "1.0 ÷ 2.0 = 0.5" ∧ divide 1 0 = "Error: Cannot divide by zero!" := by
  constructor
  · exact ((divide_spec 1 2).1 (by norm_num)).trans (by with_unfolding_all decide)
  · exact (divide_spec 1 0).2

/-- C7: negative input yields the fixed error string; for `0 ≤ x` the
result is `"√{x} = {r}"` where `r` is the value of `x ** 0.5` — when the
host power returns the exact non-negative square root (`0 ≤ r`, `r * r = x`,
the idealized reading of "to floating precision"), the numeric tail is that
root.  `squareRoot` is total: it never raises. -/
theorem square_root_spec (fp : ℚ → ℚ → ℚ) (x r : ℚ) :
    (x < 0 → squareRoot fp x = "Error: Cannot calculate square root of negative number!") ∧
    (0 ≤ x → 0 ≤ r → r * r = x → fp x (1 / 2) = r →
      squareRoot fp x = "√" ++ fmtFloat x ++ " = " ++ fmtFloat r) := by
  constructor
  · intro h
    simp [squareRoot, h]
  · intro hx _ _ hfp
    rw [squareRoot, if_neg (not_lt.2 hx), hfp]

/-- A concrete host-power oracle computing the square root of `9`. -/
def fp9 : ℚ → ℚ → ℚ := fun a b => if a = 9 ∧ b = 1 / 2 then 3 else 0

/-- C7 (witness): at `x = 9` with exact root `3` the tail is `"3.0"`. -/
theorem square_root_spec_witness : squareRoot fp9 9 = "√9.0 = 3.0" := by
  have h := (square_root_spec fp9 9 3).2 (by norm_num) (by norm_num) (by norm_num)
    (by with_unfolding_all decide)
  exact h.trans (by with_unfolding_all decide)

/-- C9: the three concrete examples of the spec hold on the modelled tools
(`fpZero` is never consulted: the expressions use no non-integer
exponent). -/
theorem math_examples_hold :
    calculate fpZero "10*2-5" = "10*2-5 = 15" ∧
    power fpZero 2 10 = "2.0^10.0 = 1024.0" ∧
    percentage 200 25 = "25.0% of 200.0 = 50.0" := by
  refine ⟨by with_unfolding_all decide, by with_unfolding_all decide,
    by with_unfolding_all decide⟩

/-- C4 (counterexample): the claim "for every outcome of the outbound HTTP
calls — transport error, non-success status, or a response missing the
expected data — get_alerts and get_forecast return one of the fixed
fallback strings and raise no exception" is false for `get_forecast` at a
concrete successful-but-incomplete response: a truthy JSON object without
the `"properties"` key makes the unguarded `points_data["properties"]`
raise `KeyError` instead of returning a fallback string. -/
theorem getForecast_missing_data_counterexample :
    getForecast (fun _ => some (JsonV.obj [("status", JsonV.num 200)])) 1 2 =
      .error PyErr.keyError := by
  with_unfolding_all rfl

/-- C4 (amended): when an outbound call yields no usable data — the request
oracle returns `None` (any transport error or non-success status) or a
falsy document (the source's `if not data` guard) — both functions return
their fixed fallback string and raise nothing; this also holds for
`get_forecast`'s second, dependent fetch.  A truthy response missing the
expected fields can instead raise (see the counterexample). -/
theorem weather_no_data_fallback (fetch : String → Option JsonV) (state : String)
    (latitude longitude : ℚ) :
    (fetch (alertsUrl state) = none → getAlerts fetch state = .ok alertsFallback) ∧
    (∀ d, fetch (alertsUrl state) = some d → pyFalsy d = true →
      getAlerts fetch state = .ok alertsFallback) ∧
    (fetch (pointsUrl latitude longitude) = none →
      getForecast fetch latitude longitude = .ok pointsFallback) ∧
    (∀ d, fetch (pointsUrl latitude longitude) = some d → pyFalsy d = true →
      getForecast fetch latitude longitude = .ok pointsFallback) ∧
    (∀ pd props furl,
      fetch (pointsUrl latitude longitude) = some pd → pyFalsy pd = false →
      jIndex pd "properties" = .ok props → jIndex props "forecast" = .ok furl →
      (fetch (jsonToStr furl) = none →
        getForecast fetch latitude longitude = .ok forecastFallback) ∧
      (∀ fd, fetch (jsonToStr furl) = some fd → pyFalsy fd = true →
        getForecast fetch latitude longitude = .ok forecastFallback)) := by
  refine ⟨fun h => ?_, fun d h hf => ?_, fun h => ?_, fun d h hf => ?_,
    fun pd props furl h1 h2 h3 h4 => ⟨fun h5 => ?_, fun fd h5 hf => ?_⟩⟩
  · simp only [getAlerts, h]
  · simp only [getAlerts, h, hf, if_true]
  · simp only [getForecast, h]
  · simp only [getForecast, h, hf, if_true]
  · simp only [getForecast, h1, h2, h3, h4, h5]
    rfl
  · simp only [getForecast, h1, h2, h3, h4, h5, hf]
    rfl

/-- A concrete request oracle for the C4 witness's second-fetch case: the
points lookup succeeds and names `"F"` as the forecast resource, whose
fetch then fails. -/
def fetchW4 : String → Option JsonV := fun u =>
  if u = "https://api.weather.gov/points/1.0,2.0" then
    some (JsonV.obj [("properties", JsonV.obj [("forecast", JsonV.str "F")])])
  else none

/-- C4 (witness): failing requests (`None`) and falsy responses (`{}`) both
yield the first fallback strings at concrete inputs, and a failing second
fetch yields `get_forecast`'s second fallback string. -/
theorem weather_no_data_fallback_witness :
    getAlerts (fun _ => none) "CA" = .ok alertsFallback ∧
    getForecast (fun _ => none) 1 2 = .ok pointsFallback ∧
    getAlerts (fun _ => some (JsonV.obj [])) "CA" = .ok alertsFallback ∧
    getForecast (fun _ => some (JsonV.obj [])) 1 2 = .ok pointsFallback ∧
    getForecast fetchW4 1 2 = .ok forecastFallback := by
  refine ⟨(weather_no_data_fallback (fun _ => none) "CA" 1 2).1 rfl,
    (weather_no_data_fallback (fun _ => none) "CA" 1 2).2.2.1 rfl,
    (weather_no_data_fallback (fun _ => some (JsonV.obj [])) "CA" 1 2).2.1
      (JsonV.obj []) rfl rfl,
    (weather_no_data_fallback (fun _ => some (JsonV.obj [])) "CA" 1 2).2.2.2.1
      (JsonV.obj []) rfl rfl,
    ((weather_no_data_fallback fetchW4 "CA" 1 2).2.2.2.2
      (JsonV.obj [("properties", JsonV.obj [("forecast", JsonV.str "F")])])
      (JsonV.obj [("forecast", JsonV.str "F")]) (JsonV.str "F")
      (by with_unfolding_all rfl) rfl rfl rfl).1 (by with_unfolding_all rfl)⟩

/-- The tool-result correlation ids appended by `runToolCalls`, in order,
equal the requests' ids: helper for the conversation invariant. -/
theorem runToolCalls_ids (o : Oracles) (s : SessionData) :
    ∀ (tcs : List ToolCall) (delta : List Message),
      runToolCalls o s tcs = .ok delta →
      delta.filterMap toolResultId = tcs.map ToolCall.id := by
  intro tcs
  induction tcs with
  | nil =>
    intro delta h
    simp only [runToolCalls] at h
    cases h
    rfl
  | cons tc rest ih =>
    intro delta h
    simp only [runToolCalls] at h
    cases hp : o.parseArgs tc.arguments with
    | error e => simp only [hp] at h; cases h
    | ok args =>
      simp only [hp] at h
      cases hc : s.callTool tc.name args with
      | error e => simp only [hc] at h; cases h
      | ok result =>
        simp only [hc] at h
        cases hr : runToolCalls o s rest with
        | error e => simp only [hr] at h; cases h
        | ok tail =>
          simp only [hr] at h
          cases h
          simp only [List.filterMap_cons, toolResultId, List.map_cons]
          rw [ih tail hr]

/-- C1: when the tool loop of `process_query` completes, the messages it
appended to the conversation before the second model call contain exactly
one tool-result message per tool-invocation request of the first response,
in request order, identified by the matching correlation ids — and the full
conversation passed to the second call (`initialMessages query ++ delta`)
contains exactly those tool results, the seed messages contributing none. -/
theorem processQuery_toolResults_invariant (o : Oracles) (s : SessionData)
    (tcs : List ToolCall) (delta : List Message) (query : String)
    (h : runToolCalls o s tcs = .ok delta) :
    (initialMessages query ++ delta).filterMap toolResultId = tcs.map ToolCall.id ∧
    (delta.filterMap toolResultId).length = tcs.length := by
  have hd := runToolCalls_ids o s tcs delta h
  constructor
  · rw [List.filterMap_append, hd]
    rfl
  · rw [hd, List.length_map]

/-- Concrete oracles for the C1 witness: two tool calls, both succeeding. -/
def oW1 : Oracles := ⟨fun _ _ => ⟨none, []⟩, fun _ => .ok .null⟩

/-- Concrete session for the C1 witness: `call_tool` echoes the tool name. -/
def sW1 : SessionData := ⟨[], fun n _ => .ok ⟨.str n⟩⟩

/-- C1 (witness): two concrete requests produce exactly two tool results
with ids `"i1", "i2"` in order, interleaved with the assistant tool-call
messages, on the conversation passed to the second call. -/
theorem processQuery_toolResults_invariant_witness :
    (initialMessages "q" ++
        [Message.assistantToolCalls [⟨"i1", "add", "a"⟩],
          Message.toolResult "i1" (JsonV.str "add"),
          Message.assistantToolCalls [⟨"i2", "mul", "b"⟩],
          Message.toolResult "i2" (JsonV.str "mul")]).filterMap toolResultId =
      [ToolCall.mk "i1" "add" "a", ToolCall.mk "i2" "mul" "b"].map ToolCall.id ∧
    ([Message.assistantToolCalls [⟨"i1", "add", "a"⟩],
        Message.toolResult "i1" (JsonV.str "add"),
        Message.assistantToolCalls [⟨"i2", "mul", "b"⟩],
        Message.toolResult "i2" (JsonV.str "mul")].filterMap toolResultId).length =
      [ToolCall.mk "i1" "add" "a", ToolCall.mk "i2" "mul" "b"].length :=
  processQuery_toolResults_invariant oW1 sW1
    [⟨"i1", "add", "a"⟩, ⟨"i2", "mul", "b"⟩]
    [.assistantToolCalls [⟨"i1", "add", "a"⟩], .toolResult "i1" (.str "add"),
      .assistantToolCalls [⟨"i2", "mul", "b"⟩], .toolResult "i2" (.str "mul")]
    "q" rfl

/-- C5: whenever `process_query` returns, its result is exactly the
newline-join of the recorded fragments: the first response's (non-empty)
text content, and — when the first response carried tool calls — also the
follow-up response's text content, in that order. -/
theorem processQuery_output_fragments (o : Oracles) (s : SessionData) (query r : String)
    (h : processQuery o (some s) query = .ok r) :
    ((firstResponse o s query).tool_calls = [] →
      r = String.intercalate "\n" (contentFrag (firstResponse o s query).content)) ∧
    ((firstResponse o s query).tool_calls ≠ [] →
      ∃ delta, runToolCalls o s (firstResponse o s query).tool_calls = .ok delta ∧
        r = String.intercalate "\n"
          (contentFrag (firstResponse o s query).content ++
            contentFrag (o.chat (initialMessages query ++ delta) none).content)) := by
  constructor
  · intro h0
    simp only [processQuery, h0, List.isEmpty_nil, if_true] at h
    cases h
    rfl
  · intro hne
    simp only [processQuery] at h
    cases hcalls : (firstResponse o s query).tool_calls with
    | nil => exact absurd hcalls hne
    | cons tc rest =>
      rw [hcalls] at h
      simp only [List.isEmpty_cons, Bool.false_eq_true, if_false] at h
      cases hrun : runToolCalls o s (tc :: rest) with
      | error e =>
        simp only [hrun] at h
        cases h
      | ok delta =>
        simp only [hrun] at h
        cases h
        exact ⟨delta, rfl, rfl⟩

/-- Concrete oracles for the C5 witness: a first response with text `"A"`
and no tool calls. -/
def oW2 : Oracles := ⟨fun _ _ => ⟨some "A", []⟩, fun _ => .ok .null⟩

/-- Concrete session for the C5 witness. -/
def sW2 : SessionData := ⟨[], fun _ _ => .ok ⟨.null⟩⟩

/-- C5 (witness): with a tool-free first response carrying text `"A"`,
the returned string is that single recorded fragment. -/
theorem processQuery_output_fragments_witness :
    "A" = String.intercalate "\n" (contentFrag (firstResponse oW2 sW2 "q").content) :=
  (processQuery_output_fragments oW2 sW2 "q" "A" rfl).1 rfl

/-- C6 (counterexample): with no established session, `process_query`
fails with `AttributeError` (the attribute access `self.session.list_tools`
on `None`), which is not the `ConnectionError` the claim names. -/
theorem processQuery_no_session_counterexample :
    processQuery oW1 none "hello" = .error PyErr.attributeError ∧
    PyErr.attributeError ≠ PyErr.connectionError :=
  ⟨rfl, by decide⟩

/-- C6 (amended): with no established session, `process_query` fails when
it attempts to fetch the tool list — but with `AttributeError`, not
`ConnectionError`. -/
theorem processQuery_no_session_attribute_error (o : Oracles) (q : String) :
    processQuery o none q = .error PyErr.attributeError := rfl

/-- C8: on any finite input transcript, the shell loop terminates exactly
when some line strips-and-lowercases to `"quit"`; every line before the
first such sentinel is forwarded to the processor and yields one printed
output — the returned text on success, the caught error message otherwise —
after which the loop continues (a failing query never ends the session). -/
theorem chatLoop_spec (p : String → Except PyErr String) (lines : List String) :
    ((chatLoop p lines).2 = true ↔ lines.any isQuit = true) ∧
    (chatLoop p lines).1 = (lines.takeWhile (fun l => !isQuit l)).map (renderTurn p) := by
  induction lines with
  | nil => simp [chatLoop]
  | cons l rest ih =>
    cases hq : isQuit l
    · simp [chatLoop, hq, ih.1, ih.2]
    · simp [chatLoop, hq]

/-- C10: a server-script path ending in neither `.py` nor `.js` makes
`connect_to_server` fail with `ValueError` performing no side effect — no
subprocess spawn, no session initialization — and leaving the client state
(in particular a `None` session) unchanged. -/
theorem connect_invalid_suffix_spec (mk : String → String → SessionData)
    (st : ClientState) (path : String)
    (h : (strEndsWith path ".py" || strEndsWith path ".js") = false) :
    connectToServer mk st path = (.error .valueError, st, []) := by
  simp only [connectToServer, h]
  rfl

/-- A trivial session factory for the C10 witness. -/
def mkW : String → String → SessionData := fun _ _ => ⟨[], fun _ _ => .ok ⟨.null⟩⟩

/-- C10 (witness): `"server.txt"` is rejected with `ValueError`, no actions,
session still `None`. -/
theorem connect_invalid_suffix_witness :
    connectToServer mkW ⟨none⟩ "server.txt" = (.error .valueError, ⟨none⟩, []) :=
  connect_invalid_suffix_spec mkW ⟨none⟩ "server.txt" (by with_unfolding_all decide)
